import Mathlib

/-!
# Verification of the CSCI6840_Project3 grid-search scripts

Shallow embedding of the two Python source files:

* `ComplexCNN.py` — model selection, data loading, optimizer selection and the
  `hyperparameter_tuning` grid-search driver;
* `test_hyperparameters.py` — the `train_model` / `evaluate_model` loop
  arithmetic and the `test_hyperparams` grid-search driver with its
  `output.txt` logging.

The tensor computations (forward passes, backpropagation, the per-epoch loss
and accuracy numbers delivered by the ML library) are abstracted as oracle
parameters; every piece of control flow, arithmetic, error raising, list and
dictionary bookkeeping, and file-mode usage written in the repository itself
is modelled directly from the source.
-/

/-- The three kinds of Python `ValueError` that the scripts can raise:
the two explicit `raise ValueError(...)` statements in
`hyperparameter_tuning`, and the interpreter's tuple-unpacking errors
(`too many values to unpack` / `not enough values to unpack`), which are
also `ValueError`s in Python. -/
inductive ValueErr where
  | unsupportedModel (name : String)
  | unsupportedOptimizer (name : String)
  | tooManyValuesToUnpack
  | notEnoughValuesToUnpack
deriving DecidableEq

/-- Opaque tags for the model architectures built by `hyperparameter_tuning`
(`SimpleCNN()`, `get_regnetx_model()`, `ComplexCNN()`); the network internals
belong to the ML library and play no role in the claims. -/
inductive ModelArch where
  | simpleCNN
  | regNetX
  | complexCNN
deriving DecidableEq

/-- The optimizer objects constructed by the scripts: `optim.Adam(...)`
with a learning rate, or `optim.SGD(...)` with a learning rate and a
momentum (PyTorch's default momentum is `0` when the argument is omitted). -/
inductive Optimizer where
  | adam (lr : ℚ)
  | sgd (lr : ℚ) (momentum : ℚ)
deriving DecidableEq

/-- One parameter combination of `hyperparameter_tuning` (ComplexCNN.py,
lines 192-197): the values unpacked from the `params` dictionary. -/
structure Params where
  model : String
  batch_size : Nat
  learning_rate : ℚ
  optimizer : String
  epochs : Nat
deriving DecidableEq

/-- The model-selection chain of `hyperparameter_tuning`
(ComplexCNN.py, lines 199-207). -/
def selectModel (name : String) : Except ValueErr ModelArch :=
  if name = "SimpleCNN" then .ok .simpleCNN
  else if name = "RegNetX" then .ok .regNetX
  else if name = "ComplexCNN" then .ok .complexCNN
  else .error (.unsupportedModel name)

/-- The optimizer-selection chain of `hyperparameter_tuning`
(ComplexCNN.py, lines 220-225); the SGD branch passes `momentum=0.9`. -/
def selectOptimizer (name : String) (lr : ℚ) : Except ValueErr Optimizer :=
  if name = "adam" then .ok (.adam lr)
  else if name = "sgd" then .ok (.sgd lr (9/10))
  else .error (.unsupportedOptimizer name)

/-- The three values returned by `load_and_visualize_data`
(ComplexCNN.py, line 31): `trainloader, testloader, trainset.classes`. -/
inductive DataComponent where
  | trainloader (batch_size : Nat)
  | testloader (batch_size : Nat)
  | classes
deriving DecidableEq

/-- `load_and_visualize_data` (ComplexCNN.py, lines 17-31), viewed as the
tuple of values it returns: a train loader, a test loader, and the dataset's
class list. -/
def load_and_visualize_data (batch_size : Nat) : List DataComponent :=
  [.trainloader batch_size, .testloader batch_size, .classes]

/-- Python's semantics for the two-target tuple assignment
`trainloader, testloader = ...` (ComplexCNN.py, line 210): unpacking
succeeds exactly when the right-hand side has two components, and raises a
`ValueError` otherwise. -/
def unpackTwo (vals : List DataComponent) :
    Except ValueErr (DataComponent × DataComponent) :=
  match vals with
  | [a, b] => .ok (a, b)
  | _ :: _ :: _ :: _ => .error .tooManyValuesToUnpack
  | _ => .error .notEnoughValuesToUnpack

/-- The body of one iteration of the `for params in combinations` loop of
`hyperparameter_tuning` (ComplexCNN.py, lines 189-232): model selection,
data loading with the two-target unpack, optimizer selection, then training
and evaluation.  The test accuracy produced by `train_model` +
`evaluate_model` is abstracted as the oracle `testAcc`; the validation
split has no modelled effect. -/
def runCombination (testAcc : Params → ℚ) (p : Params) : Except ValueErr ℚ :=
  match selectModel p.model with
  | .error e => .error e
  | .ok _model =>
    match unpackTwo (load_and_visualize_data p.batch_size) with
    | .error e => .error e
    | .ok (_trainloader, _testloader) =>
      match selectOptimizer p.optimizer p.learning_rate with
      | .error e => .error e
      | .ok _optimizer => .ok (testAcc p)

/-- The best-so-far update of `hyperparameter_tuning`
(ComplexCNN.py, lines 235-237) and of the final selection loop of
`test_hyperparams` (test_hyperparameters.py, lines 247-249): the stored
pair is replaced exactly when the new accuracy is strictly larger. -/
def bestStep {β : Type} (st : β × ℚ) (r : β × ℚ) : β × ℚ :=
  if st.2 < r.2 then r else st

/-- The selection of the best entry from a recorded results list, as both
drivers perform it: a fold of `bestStep` starting from the sentinel state
(`best_params = None` / `'none'`, `best_accuracy = 0`). -/
def selectBest {κ : Type} (rs : List (κ × ℚ)) : Option κ × ℚ :=
  rs.foldl (fun st r => bestStep st (some r.1, r.2)) (none, 0)

/-- The `for params in combinations` loop of `hyperparameter_tuning`
(ComplexCNN.py, lines 189-238), threading the best-so-far state and the
`results` list; a raised `ValueError` aborts the whole loop. -/
def tuningLoop (testAcc : Params → ℚ) :
    List Params → (Option Params × ℚ) × List (Params × ℚ) →
    Except ValueErr ((Option Params × ℚ) × List (Params × ℚ))
  | [], st => .ok st
  | p :: rest, (best, results) =>
    match runCombination testAcc p with
    | .error e => .error e
    | .ok a => tuningLoop testAcc rest (bestStep best (some p, a), results ++ [(p, a)])

/-- The `param_grid` dictionary shape used by `hyperparameter_tuning`
(ComplexCNN.py, lines 273-279): one list of choices per hyperparameter,
in the dictionary's insertion order. -/
structure ParamGrid where
  model : List String
  batch_size : List Nat
  learning_rate : List ℚ
  optimizer : List String
  epochs : List Nat

/-- `itertools.product(*values)` over the grid's choice lists followed by
`dict(zip(keys, v))` (ComplexCNN.py, lines 186-187): the last list varies
fastest, which is this nest of loops. -/
def gridCombinations (g : ParamGrid) : List Params :=
  g.model.flatMap fun m =>
    g.batch_size.flatMap fun bs =>
      g.learning_rate.flatMap fun lr =>
        g.optimizer.flatMap fun o =>
          g.epochs.map fun e => ⟨m, bs, lr, o, e⟩

/-- `hyperparameter_tuning` (ComplexCNN.py, lines 180-242): enumerate the
combinations, run each, and return `(best_params, best_accuracy, results)`. -/
def hyperparameter_tuning (testAcc : Params → ℚ) (g : ParamGrid) :
    Except ValueErr (Option Params × ℚ × List (Params × ℚ)) :=
  match tuningLoop testAcc (gridCombinations g) ((none, 0), []) with
  | .error e => .error e
  | .ok ((bp, ba), rs) => .ok (bp, ba, rs)

/-- The hard-coded grid of the `__main__` block (ComplexCNN.py,
lines 273-279). -/
def mainParamGrid : ParamGrid :=
  { model := ["SimpleCNN", "RegNetX"]
    batch_size := [32, 64]
    learning_rate := [1/1000, 5/10000]
    optimizer := ["adam", "sgd"]
    epochs := [10] }

/-- A model name accepted by the selection chain of `hyperparameter_tuning`. -/
def supportedModelName (name : String) : Prop :=
  name = "SimpleCNN" ∨ name = "RegNetX" ∨ name = "ComplexCNN"

instance (name : String) : Decidable (supportedModelName name) := by
  unfold supportedModelName; infer_instance

/-- An optimizer name accepted by the selection chain of
`hyperparameter_tuning`. -/
def supportedOptimizerName (name : String) : Prop :=
  name = "adam" ∨ name = "sgd"

instance (name : String) : Decidable (supportedOptimizerName name) := by
  unfold supportedOptimizerName; infer_instance

/-! ## test_hyperparameters.py -/

/-- The module-level optimizer switch (test_hyperparameters.py, line 11). -/
def optimizer_type : String := "Adam"

/-- The optimizer construction of `test_hyperparams`
(test_hyperparameters.py, lines 219-222): `Adam` when the switch equals
`'Adam'`, otherwise plain `SGD` with PyTorch's default momentum `0`. -/
def chooseOptimizerTH (opt : String) (lr : ℚ) : Optimizer :=
  if opt = "Adam" then .adam lr else .sgd lr 0

/-- The guard `epoch+1 % 8 == 0` of `train_model`
(test_hyperparameters.py, line 97), with Python's precedence: `%` binds
tighter than `+`, which binds tighter than `==`. -/
def epochWriteGuard (epoch : Nat) : Bool :=
  epoch + 1 % 8 == 0

/-- The four per-epoch metric lists accumulated by `train_model`
(test_hyperparameters.py, lines 49-52). -/
structure TrainCurves where
  train_losses : List ℚ
  val_losses : List ℚ
  train_accs : List ℚ
  val_accs : List ℚ
deriving DecidableEq

/-- The lines the scripts write to `output.txt` (content abstracted to the
values interpolated into each f-string). -/
inductive LogLine where
  | beginHeader
  | testing (curr_test num_tests : Nat) (lr : ℚ) (bs ne : Nat)
  | epochMetrics (epoch num_epochs : Nat)
      (train_loss train_acc val_loss val_acc : ℚ)
  | testAccuracy (acc : ℚ)
  | best (key : Option (ℚ × Nat × Nat)) (acc : ℚ)
deriving DecidableEq

/-- The mode in which `open('output.txt', ...)` is called. -/
inductive FileMode where
  | write
  | append
deriving DecidableEq

/-- One `open('output.txt', mode)` + `print(..., file=file)` event. -/
structure FileEvent where
  mode : FileMode
  line : LogLine
deriving DecidableEq

/-- The per-epoch metrics `(train_loss, train_acc, val_loss, val_acc)`
computed by the training and validation phases; their numeric values come
from the ML library and are abstracted as an oracle indexed by the epoch. -/
def EpochMetrics : Type := Nat → ℚ × ℚ × ℚ × ℚ

/-- The body of the `for epoch in range(num_epochs)` loop of `train_model`
(test_hyperparameters.py, lines 54-100): append the epoch's metrics to the
four curves, and write the metrics line exactly when `epoch+1 % 8 == 0`. -/
def epochStep (metrics : EpochMetrics) (num_epochs : Nat)
    (st : TrainCurves × List FileEvent) (epoch : Nat) :
    TrainCurves × List FileEvent :=
  let c := st.1
  let m := metrics epoch
  let c' : TrainCurves :=
    { train_losses := c.train_losses ++ [m.1]
      val_losses := c.val_losses ++ [m.2.2.1]
      train_accs := c.train_accs ++ [m.2.1]
      val_accs := c.val_accs ++ [m.2.2.2] }
  let evs' :=
    if epochWriteGuard epoch then
      st.2 ++ [⟨.append, .epochMetrics (epoch + 1) num_epochs m.1 m.2.1 m.2.2.1 m.2.2.2⟩]
    else st.2
  (c', evs')

/-- `train_model` (test_hyperparameters.py, lines 48-102): run the epoch
loop and return the four curves together with the file events it emitted. -/
def train_model (metrics : EpochMetrics) (num_epochs : Nat) :
    TrainCurves × List FileEvent :=
  (List.range num_epochs).foldl (epochStep metrics num_epochs)
    (⟨[], [], [], []⟩, [])

/-- The accuracy arithmetic of `evaluate_model`
(ComplexCNN.py, lines 163-177 compute `100 * correct / total`;
test_hyperparameters.py, lines 105-120 compute `correct / total * 100`,
the same rational).  Each batch contributes its number of correct
predictions and its number of labels; a run with `total = 0` raises
`ZeroDivisionError` in Python, modelled as `none`. -/
def evaluate_model (batches : List (Nat × Nat)) : Option ℚ :=
  if (batches.map Prod.snd).sum = 0 then none
  else some (100 * ((batches.map Prod.fst).sum : ℚ)
    / ((batches.map Prod.snd).sum : ℚ))

/-- The hyperparameter choice lists of `test_hyperparams`
(test_hyperparameters.py, lines 190-192). -/
def learningRatesTH : List ℚ :=
  [1/10000, 5/10000, 1/1000, 5/1000, 1/100, 5/100, 1/10]

/-- Batch-size choices (test_hyperparameters.py, line 191). -/
def batchSizesTH : List Nat := [8, 16, 32, 64, 128, 256]

/-- Epoch-count choices (test_hyperparameters.py, line 192). -/
def numEpochsTH : List Nat := [5, 10, 20, 35, 50, 100]

/-- The triple loop `for lr in learning_rate: for bs in batch_size:
for ne in num_epochs:` of `test_hyperparams`
(test_hyperparameters.py, lines 204-206), as the list of visited triples. -/
def thCombos : List (ℚ × Nat × Nat) :=
  learningRatesTH.flatMap fun lr =>
    batchSizesTH.flatMap fun bs =>
      numEpochsTH.map fun ne => (lr, bs, ne)

/-- `num_tests` (test_hyperparameters.py, line 200). -/
def num_tests : Nat :=
  learningRatesTH.length * batchSizesTH.length * numEpochsTH.length

/-- One entry of the `results` dictionary of `test_hyperparams`
(test_hyperparameters.py, lines 231-237), keyed by the hyperparameter
triple interpolated into the key string. -/
structure THRecord where
  key : ℚ × Nat × Nat
  accuracy : ℚ
  curves : TrainCurves
deriving DecidableEq

/-- The body of one iteration of the triple loop of `test_hyperparams`
(test_hyperparameters.py, lines 207-240): bump `curr_test`, log the
`Testing i/n` header (append mode), train (emitting `train_model`'s file
events), evaluate (whose test accuracy, an ML-library value, is the oracle
`testAcc`, and which appends the `Test Accuracy` line), and insert the
result record. -/
def thStep (metrics : ℚ → Nat → Nat → EpochMetrics) (testAcc : ℚ → Nat → Nat → ℚ)
    (st : Nat × List THRecord × List FileEvent) (c : ℚ × Nat × Nat) :
    Nat × List THRecord × List FileEvent :=
  match c with
  | (lr, bs, ne) =>
    let n := st.1 + 1
    let evs₁ := st.2.2 ++ [⟨.append, .testing n num_tests lr bs ne⟩]
    let tr := train_model (metrics lr bs ne) ne
    let evs₂ := evs₁ ++ tr.2
    let a := testAcc lr bs ne
    let evs₃ := evs₂ ++ [⟨.append, .testAccuracy a⟩]
    (n, st.2.1 ++ [⟨(lr, bs, ne), a, tr.1⟩], evs₃)

/-- `test_hyperparams` (test_hyperparameters.py, lines 185-252): truncate
`output.txt` with the `Beginning Hyperparameter Test` header (write mode),
run the triple loop, and after plotting select the largest-accuracy key
with the `[0, 'none']` sentinel loop and append the final best line. -/
def test_hyperparams (metrics : ℚ → Nat → Nat → EpochMetrics)
    (testAcc : ℚ → Nat → Nat → ℚ) : List THRecord × List FileEvent :=
  let st := thCombos.foldl (thStep metrics testAcc)
    (0, [], [⟨.write, .beginHeader⟩])
  let best := selectBest (st.2.1.map fun r => (r.key, r.accuracy))
  (st.2.1, st.2.2 ++ [⟨.append, .best best.1 best.2⟩])

/-- Replaying a sequence of file events against a file state (the list of
lines currently in `output.txt`): mode `'w'` truncates, mode `'a'` appends. -/
def replayFile (s : List LogLine) (evs : List FileEvent) : List LogLine :=
  evs.foldl
    (fun acc e =>
      match e.mode with
      | .write => [e.line]
      | .append => acc ++ [e.line])
    s

/-! ## Helper lemmas -/

/-- With a supported model name, the iteration body of
`hyperparameter_tuning` always fails at the two-target unpack of
`load_and_visualize_data`'s three return values, whatever the training
oracle would have produced. -/
theorem runCombination_unpack_error (p : Params) (h : supportedModelName p.model)
    (testAcc : Params → ℚ) :
    runCombination testAcc p = .error .tooManyValuesToUnpack := by
  rcases h with h | h | h <;>
    simp [runCombination, selectModel, h, load_and_visualize_data, unpackTwo]

/-- The guard `epoch+1 % 8 == 0` is identically false on natural epochs. -/
theorem epochWriteGuard_eq_false (epoch : Nat) : epochWriteGuard epoch = false := by
  simp [epochWriteGuard]

/-- The epoch loop of `train_model` never extends the event list. -/
theorem foldl_epochStep_writes (metrics : EpochMetrics) (n : Nat)
    (l : List Nat) (st : TrainCurves × List FileEvent) :
    (l.foldl (epochStep metrics n) st).2 = st.2 := by
  induction l generalizing st with
  | nil => rfl
  | cons e rest ih =>
    rw [List.foldl_cons, ih]
    simp [epochStep, epochWriteGuard_eq_false]

/-- `train_model` emits no file events at all. -/
theorem train_model_writes_nil (metrics : EpochMetrics) (num_epochs : Nat) :
    (train_model metrics num_epochs).2 = [] := by
  simpa [train_model] using
    foldl_epochStep_writes metrics num_epochs (List.range num_epochs) (⟨[], [], [], []⟩, [])

/-- Each pass through the epoch loop extends the four curve lists by one. -/
theorem foldl_epochStep_lengths (metrics : EpochMetrics) (n : Nat)
    (l : List Nat) (st : TrainCurves × List FileEvent) :
    ((l.foldl (epochStep metrics n) st).1.train_losses.length
        = st.1.train_losses.length + l.length) ∧
    ((l.foldl (epochStep metrics n) st).1.val_losses.length
        = st.1.val_losses.length + l.length) ∧
    ((l.foldl (epochStep metrics n) st).1.train_accs.length
        = st.1.train_accs.length + l.length) ∧
    ((l.foldl (epochStep metrics n) st).1.val_accs.length
        = st.1.val_accs.length + l.length) := by
  induction l generalizing st with
  | nil => simp
  | cons e rest ih =>
    obtain ⟨h1, h2, h3, h4⟩ := ih (epochStep metrics n st e)
    rw [List.foldl_cons]
    refine ⟨?_, ?_, ?_, ?_⟩ <;>
      [rw [h1]; rw [h2]; rw [h3]; rw [h4]] <;>
      simp [epochStep] <;> omega

/-- Specification of the strict-improvement fold shared by both best-result
selection loops: the final state dominates the start and every visited
accuracy, and is either the untouched start state or one of the entries. -/
theorem bestFold_spec {β : Type} (rs : List (β × ℚ)) (st : β × ℚ) :
    st.2 ≤ (rs.foldl bestStep st).2 ∧
    (∀ r ∈ rs, r.2 ≤ (rs.foldl bestStep st).2) ∧
    (rs.foldl bestStep st = st ∨ rs.foldl bestStep st ∈ rs) := by
  induction rs generalizing st with
  | nil => simp
  | cons r rest ih =>
    obtain ⟨hle, hmax, hcase⟩ := ih (bestStep st r)
    rw [List.foldl_cons]
    have hstep₁ : st.2 ≤ (bestStep st r).2 := by
      unfold bestStep; split <;> simp_all [le_of_lt]
    have hstep₂ : r.2 ≤ (bestStep st r).2 := by
      unfold bestStep; split <;> simp_all [le_of_not_lt]
    refine ⟨le_trans hstep₁ hle, ?_, ?_⟩
    · intro x hx
      rcases List.mem_cons.1 hx with hx | hx
      · subst hx; exact le_trans hstep₂ hle
      · exact hmax x hx
    · rcases hcase with hc | hc
      · rw [hc]
        unfold bestStep; split
        · exact Or.inr (List.mem_cons_self r rest)
        · exact Or.inl rfl
      · exact Or.inr (List.mem_cons_of_mem r hc)

/-! ## Claim theorems -/

/-- Claim C3: for every parameter combination with a supported model name
and optimizer name, the iteration body of `hyperparameter_tuning` raises a
runtime error before any training occurs — `load_and_visualize_data`
returns three values but the call site unpacks two, so data loading fails.
Independence from `testAcc` expresses that training is never reached. -/
theorem c3_data_load_fails (p : Params) (h1 : supportedModelName p.model)
    (h2 : supportedOptimizerName p.optimizer) :
    ∀ testAcc : Params → ℚ,
      runCombination testAcc p = .error .tooManyValuesToUnpack :=
  fun testAcc => runCombination_unpack_error p h1 testAcc

/-- Witness for C3 at the first combination of the script's own grid. -/
theorem c3_data_load_fails_witness :
    supportedModelName "SimpleCNN" ∧ supportedOptimizerName "adam" ∧
    runCombination (fun _ => 0) ⟨"SimpleCNN", 32, 1/1000, "adam", 10⟩
      = .error .tooManyValuesToUnpack :=
  ⟨by decide, by decide,
    c3_data_load_fails ⟨"SimpleCNN", 32, 1/1000, "adam", 10⟩
      (by decide) (by decide) (fun _ => 0)⟩

/-- Claim C4: whenever `evaluate_model` runs over a non-empty batch list in
which each batch's correct count is at most its label count, the returned
accuracy `100 * correct / total` lies in `[0, 100]`. -/
theorem c4_accuracy_bounds (batches : List (Nat × Nat))
    (hne : batches ≠ []) (hcorrect : ∀ b ∈ batches, b.1 ≤ b.2) (a : ℚ)
    (ha : evaluate_model batches = some a) : 0 ≤ a ∧ a ≤ 100 := by
  unfold evaluate_model at ha
  split at ha
  · exact absurd ha (by simp)
  · rename_i htz
    obtain rfl : 100 * ((batches.map Prod.fst).sum : ℚ)
        / ((batches.map Prod.snd).sum : ℚ) = a := by
      simpa using ha
    have hct : (batches.map Prod.fst).sum ≤ (batches.map Prod.snd).sum :=
      List.sum_le_sum hcorrect
    have htpos : (0 : ℚ) < ((batches.map Prod.snd).sum : ℚ) := by
      exact_mod_cast Nat.pos_of_ne_zero htz
    constructor
    · positivity
    · rw [div_le_iff₀ htpos]
      have : ((batches.map Prod.fst).sum : ℚ) ≤ ((batches.map Prod.snd).sum : ℚ) := by
        exact_mod_cast hct
      nlinarith

/-- Witness for C4 on a single batch with 3 of 4 predictions correct. -/
theorem c4_accuracy_bounds_witness :
    evaluate_model [(3, 4)] = some 75 ∧ (0 ≤ (75 : ℚ) ∧ (75 : ℚ) ≤ 100) :=
  ⟨by norm_num [evaluate_model],
    c4_accuracy_bounds [(3, 4)] (by decide) (by decide) 75
      (by norm_num [evaluate_model])⟩

/-- Claim C5: `train_model` returns four curve lists whose lengths all
equal the epoch count, one entry appended per epoch. -/
theorem c5_curve_lengths (metrics : EpochMetrics) (num_epochs : Nat) :
    (train_model metrics num_epochs).1.train_losses.length = num_epochs ∧
    (train_model metrics num_epochs).1.val_losses.length = num_epochs ∧
    (train_model metrics num_epochs).1.train_accs.length = num_epochs ∧
    (train_model metrics num_epochs).1.val_accs.length = num_epochs := by
  have h := foldl_epochStep_lengths metrics num_epochs (List.range num_epochs)
    (⟨[], [], [], []⟩, [])
  simpa [train_model] using h

/-- Claim C8: the guard `epoch+1 % 8 == 0` of `train_model` parses as
`epoch + (1 % 8) == 0` and is false for every epoch index, so the
per-epoch branch writing metrics to `output.txt` never executes. -/
theorem c8_dead_epoch_log :
    (∀ epoch : Nat, epochWriteGuard epoch = false) ∧
    ∀ (metrics : EpochMetrics) (num_epochs : Nat),
      (train_model metrics num_epochs).2 = [] :=
  ⟨epochWriteGuard_eq_false, train_model_writes_nil⟩

/-- Claim C9: in `test_hyperparams`, any `optimizer_type` other than the
string `'Adam'` silently selects a plain SGD optimizer (momentum 0); no
error is raised. -/
theorem c9_silent_sgd_fallback (s : String) (lr : ℚ) (h : s ≠ "Adam") :
    chooseOptimizerTH s lr = .sgd lr 0 := by
  simp [chooseOptimizerTH, h]

/-- Witness for C9 at the misselling-free setting `'SGD'`. -/
theorem c9_silent_sgd_fallback_witness :
    ("SGD" : String) ≠ "Adam" ∧ chooseOptimizerTH "SGD" (1/10) = .sgd (1/10) 0 :=
  ⟨by decide, c9_silent_sgd_fallback "SGD" (1/10) (by decide)⟩

/-- An unsupported model name makes the selection chain raise the
`Unsupported model` ValueError. -/
theorem selectModel_unsupported (name : String) (h : ¬ supportedModelName name) :
    selectModel name = .error (.unsupportedModel name) := by
  unfold supportedModelName at h
  push_neg at h
  simp [selectModel, h.1, h.2.1, h.2.2]

/-- An unsupported model name aborts the iteration body with the
`Unsupported model` ValueError (raised before data loading). -/
theorem runCombination_unsupported_model (testAcc : Params → ℚ) (p : Params)
    (h : ¬ supportedModelName p.model) :
    runCombination testAcc p = .error (.unsupportedModel p.model) := by
  simp [runCombination, selectModel_unsupported p.model h]

/-- Claim C1 (amended): whenever some recorded accuracy is strictly
positive, the selection fold shared by `hyperparameter_tuning`
(lines 234-241) and `test_hyperparams` (lines 245-249) returns the maximum
recorded accuracy together with a key that attains it.  (When every
accuracy is `0` the sentinel `(None, 0)` / `(0, 'none')` survives instead;
see the counterexample.) -/
theorem c1_argmax_selection {κ : Type} (rs : List (κ × ℚ))
    (h : ∃ r ∈ rs, 0 < r.2) :
    (∀ r ∈ rs, r.2 ≤ (selectBest rs).2) ∧
    ∃ k, (selectBest rs).1 = some k ∧ (k, (selectBest rs).2) ∈ rs := by
  have hsel : selectBest rs
      = (rs.map fun r => ((some r.1 : Option κ), r.2)).foldl bestStep (none, 0) := by
    rw [selectBest, List.foldl_map]
  obtain ⟨-, hmax, hcase⟩ :=
    bestFold_spec (rs.map fun r => ((some r.1 : Option κ), r.2)) (none, 0)
  obtain ⟨r₀, hr₀, hpos⟩ := h
  have hne : (rs.map fun r => ((some r.1 : Option κ), r.2)).foldl bestStep (none, 0)
      ≠ ((none : Option κ), (0 : ℚ)) := by
    intro heq
    have hr := hmax (some r₀.1, r₀.2) (List.mem_map.2 ⟨r₀, hr₀, rfl⟩)
    rw [heq] at hr
    exact absurd hpos (not_lt.2 hr)
  constructor
  · intro r hr
    have := hmax (some r.1, r.2) (List.mem_map.2 ⟨r, hr, rfl⟩)
    rw [hsel]
    exact this
  · rcases hcase with hc | hc
    · exact absurd hc hne
    · obtain ⟨r, hr, hr2⟩ := List.mem_map.1 hc
      refine ⟨r.1, ?_, ?_⟩
      · rw [hsel, ← hr2]
      · rw [hsel, ← hr2]
        simpa using hr

/-- Witness for the amended C1 on a one-entry results list with a positive
accuracy. -/
theorem c1_argmax_selection_witness :
    (∀ r ∈ [(("key" : String), (50 : ℚ))],
      r.2 ≤ (selectBest [(("key" : String), (50 : ℚ))]).2) ∧
    ∃ k, (selectBest [(("key" : String), (50 : ℚ))]).1 = some k ∧
      (k, (selectBest [(("key" : String), (50 : ℚ))]).2)
        ∈ [(("key" : String), (50 : ℚ))] :=
  c1_argmax_selection [(("key" : String), (50 : ℚ))]
    ⟨("key", 50), by simp, by norm_num⟩

/-- Counterexample to C1 as stated: on a results list whose only recorded
accuracy is `0` (a reachable value: a model with every test prediction
wrong), the selection fold keeps the sentinel — the reported best
parameters are `None` / `'none'`, which is not the combination attaining
the maximum. -/
theorem c1_counterexample :
    selectBest [((((1 : ℚ)/10, (8 : Nat), (5 : Nat)) : ℚ × Nat × Nat), (0 : ℚ))]
      = (none, 0) ∧
    (none : Option (ℚ × Nat × Nat)) ≠ some ((1 : ℚ)/10, 8, 5) := by
  constructor
  · simp [selectBest, bestStep]
  · simp

/-- Claim C6 (amended): a combination makes the iteration body raise the
`Unsupported model` ValueError exactly when its model name is not one of
`SimpleCNN`, `RegNetX`, `ComplexCNN` (a supported name instead hits the
tuple-unpack ValueError), and such an error aborts the grid-search loop at
once — the result does not depend on the remaining combinations. -/
theorem c6_unsupported_model_error (testAcc : Params → ℚ) (p : Params)
    (rest : List Params) :
    (runCombination testAcc p = .error (.unsupportedModel p.model) ↔
      ¬ supportedModelName p.model) ∧
    (¬ supportedModelName p.model →
      tuningLoop testAcc (p :: rest) ((none, 0), [])
        = .error (.unsupportedModel p.model)) := by
  constructor
  · constructor
    · intro herr hsupp
      rw [runCombination_unpack_error p hsupp testAcc] at herr
      exact ValueErr.noConfusion (Except.error.inj herr)
    · exact runCombination_unsupported_model testAcc p
  · intro hn
    rw [show tuningLoop testAcc (p :: rest) ((none, 0), [])
        = match runCombination testAcc p with
          | .error e => .error e
          | .ok a => tuningLoop testAcc rest
              (bestStep (none, 0) (some p, a), [] ++ [(p, a)]) from rfl,
      runCombination_unsupported_model testAcc p hn]

/-- Witness for the amended C6 at a one-element grid with a misspelled
model name. -/
theorem c6_unsupported_model_error_witness :
    (runCombination (fun _ => 0) ⟨"FooNet", 32, 1/1000, "adam", 10⟩
        = .error (.unsupportedModel "FooNet") ↔
      ¬ supportedModelName "FooNet") ∧
    (¬ supportedModelName "FooNet" →
      tuningLoop (fun _ => 0) [⟨"FooNet", 32, 1/1000, "adam", 10⟩] ((none, 0), [])
        = .error (.unsupportedModel "FooNet")) :=
  c6_unsupported_model_error (fun _ => 0) ⟨"FooNet", 32, 1/1000, "adam", 10⟩ []

/-- Counterexample to C6 as stated: a combination whose model name is
supported still makes `hyperparameter_tuning` raise a ValueError — the
tuple-unpack one, not the `Unsupported model` one — so "raises a
ValueError iff the model name is unsupported" fails in the only-if
direction. -/
theorem c6_counterexample :
    supportedModelName "SimpleCNN" ∧
    runCombination (fun _ => (0 : ℚ)) ⟨"SimpleCNN", 32, 1/1000, "adam", 10⟩
      = .error .tooManyValuesToUnpack ∧
    ValueErr.tooManyValuesToUnpack ≠ ValueErr.unsupportedModel "SimpleCNN" := by
  refine ⟨by decide, ?_, by decide⟩
  simp [runCombination, selectModel, load_and_visualize_data, unpackTwo]

/-- Claim C7 (amended): the optimizer-selection chain of
`hyperparameter_tuning` raises the `Unsupported optimizer` ValueError
exactly when the name is neither `adam` nor `sgd`; however, for any
combination with a supported model name the iteration fails at the data
load before that check is ever reached, and `test_hyperparams` does not
fail on an unsupported optimizer setting at all — it silently constructs
an SGD optimizer. -/
theorem c7_optimizer_handling (name : String) (lr : ℚ) (p : Params)
    (testAcc : Params → ℚ) :
    (selectOptimizer name lr = .error (.unsupportedOptimizer name) ↔
      ¬ supportedOptimizerName name) ∧
    (supportedModelName p.model →
      runCombination testAcc p = .error .tooManyValuesToUnpack) ∧
    (name ≠ "Adam" → chooseOptimizerTH name lr = .sgd lr 0) := by
  refine ⟨⟨?_, ?_⟩, ?_, ?_⟩
  · intro herr hsupp
    rcases hsupp with h | h <;> simp [selectOptimizer, h] at herr
  · intro hn
    unfold supportedOptimizerName at hn
    push_neg at hn
    simp [selectOptimizer, hn.1, hn.2]
  · intro hsupp
    exact runCombination_unpack_error p hsupp testAcc
  · intro h
    simp [chooseOptimizerTH, h]

/-- Witness for the amended C7 at an unsupported optimizer name and the
grid's first combination. -/
theorem c7_optimizer_handling_witness :
    (selectOptimizer "rmsprop" (1/100) = .error (.unsupportedOptimizer "rmsprop") ↔
      ¬ supportedOptimizerName "rmsprop") ∧
    (supportedModelName "SimpleCNN" →
      runCombination (fun _ => 0) ⟨"SimpleCNN", 32, 1/1000, "adam", 10⟩
        = .error .tooManyValuesToUnpack) ∧
    ("rmsprop" ≠ "Adam" → chooseOptimizerTH "rmsprop" (1/100) = .sgd (1/100) 0) :=
  c7_optimizer_handling "rmsprop" (1/100) ⟨"SimpleCNN", 32, 1/1000, "adam", 10⟩
    (fun _ => 0)

/-- Counterexample to C7 as stated: `test_hyperparams` does not fail on an
unsupported optimizer setting (it silently builds an SGD optimizer), and a
combination with the supported optimizer `adam` still makes the iteration
raise a ValueError — the tuple-unpack one — so "raises a ValueError iff
the optimizer name is unsupported" fails in both drivers. -/
theorem c7_counterexample :
    chooseOptimizerTH "RMSProp" (1/100) = .sgd (1/100) 0 ∧
    ¬ supportedOptimizerName "RMSProp" ∧
    supportedOptimizerName "adam" ∧
    runCombination (fun _ => (0 : ℚ)) ⟨"SimpleCNN", 32, 1/1000, "adam", 10⟩
      = .error .tooManyValuesToUnpack ∧
    ValueErr.tooManyValuesToUnpack ≠ ValueErr.unsupportedOptimizer "adam" := by
  refine ⟨?_, by decide, by decide, ?_, by decide⟩
  · simp [chooseOptimizerTH]
  · simp [runCombination, selectModel, load_and_visualize_data, unpackTwo]

/-- A `flatMap` whose pieces all have the same length multiplies lengths. -/
theorem flatMap_length_const {α β : Type} (l : List α) (f : α → List β) (n : Nat)
    (h : ∀ a ∈ l, (f a).length = n) : (l.flatMap f).length = l.length * n := by
  induction l with
  | nil => simp
  | cons a rest ih =>
    rw [List.flatMap_cons, List.length_append, h a (List.mem_cons_self a rest),
      ih (fun x hx => h x (List.mem_cons_of_mem a hx)), List.length_cons]
    ring

/-- The number of grid combinations is the product of the choice-list
sizes, exactly as `itertools.product` enumerates them. -/
theorem gridCombinations_length (g : ParamGrid) :
    (gridCombinations g).length =
      g.model.length * g.batch_size.length * g.learning_rate.length
        * g.optimizer.length * g.epochs.length := by
  unfold gridCombinations
  rw [flatMap_length_const _ _
    (g.batch_size.length * (g.learning_rate.length
      * (g.optimizer.length * g.epochs.length)))]
  · ring
  · intro m _
    rw [flatMap_length_const _ _
      (g.learning_rate.length * (g.optimizer.length * g.epochs.length))]
    intro bs _
    rw [flatMap_length_const _ _ (g.optimizer.length * g.epochs.length)]
    intro lr _
    rw [flatMap_length_const _ _ g.epochs.length]
    intro o _
    simp

/-- Membership in the grid enumeration is exactly componentwise membership
in the choice lists. -/
theorem mem_gridCombinations (g : ParamGrid) (p : Params) :
    p ∈ gridCombinations g ↔
      p.model ∈ g.model ∧ p.batch_size ∈ g.batch_size ∧
      p.learning_rate ∈ g.learning_rate ∧ p.optimizer ∈ g.optimizer ∧
      p.epochs ∈ g.epochs := by
  constructor
  · intro hp
    simp only [gridCombinations, List.mem_flatMap, List.mem_map] at hp
    obtain ⟨m, hm, bs, hbs, lr, hlr, o, ho, e, he, rfl⟩ := hp
    exact ⟨hm, hbs, hlr, ho, he⟩
  · intro h
    obtain ⟨h1, h2, h3, h4, h5⟩ := h
    simp only [gridCombinations, List.mem_flatMap, List.mem_map]
    exact ⟨p.model, h1, p.batch_size, h2, p.learning_rate, h3,
      p.optimizer, h4, p.epochs, h5, rfl⟩

/-- The grid enumeration is the cartesian product of the choice lists,
repackaged into `Params` records. -/
theorem gridCombinations_eq_product (g : ParamGrid) :
    gridCombinations g =
      (g.model ×ˢ (g.batch_size ×ˢ (g.learning_rate ×ˢ (g.optimizer ×ˢ g.epochs)))).map
        (fun x => ⟨x.1, x.2.1, x.2.2.1, x.2.2.2.1, x.2.2.2.2⟩) := by
  simp [gridCombinations, SProd.sprod, List.product, List.map_flatMap,
    List.map_map, Function.comp_def]

/-- The triple loop of `test_hyperparams` visits the cartesian product of
its three choice lists. -/
theorem thCombos_eq_product :
    thCombos = learningRatesTH ×ˢ (batchSizesTH ×ˢ numEpochsTH) := by
  simp [thCombos, SProd.sprod, List.product, List.map_flatMap, List.map_map,
    Function.comp_def]

/-- The learning-rate choices are pairwise distinct. -/
theorem learningRatesTH_nodup : learningRatesTH.Nodup := by
  norm_num [learningRatesTH, List.nodup_cons]

/-- The main grid's enumeration lists every combination exactly once. -/
theorem gridCombinations_main_nodup : (gridCombinations mainParamGrid).Nodup := by
  rw [gridCombinations_eq_product]
  apply List.Nodup.map
  · rintro ⟨a1, a2, a3, a4, a5⟩ ⟨b1, b2, b3, b4, b5⟩ h
    simpa using h
  · refine List.Nodup.product ?_ (List.Nodup.product ?_
      (List.Nodup.product ?_ (List.Nodup.product ?_ ?_)))
    · decide
    · decide
    · norm_num [mainParamGrid, List.nodup_cons]
    · decide
    · decide

/-- The triple loop of `test_hyperparams` visits every hyperparameter
triple exactly once. -/
theorem thCombos_nodup : thCombos.Nodup := by
  rw [thCombos_eq_product]
  exact List.Nodup.product learningRatesTH_nodup
    (List.Nodup.product (by decide) (by decide))

/-- The results list built by the triple loop of `test_hyperparams` is one
record per visited combination, carrying its hyperparameters, its test
accuracy, and its training curves. -/
theorem foldl_thStep_results (metrics : ℚ → Nat → Nat → EpochMetrics)
    (testAcc : ℚ → Nat → Nat → ℚ) (l : List (ℚ × Nat × Nat))
    (st : Nat × List THRecord × List FileEvent) :
    (l.foldl (thStep metrics testAcc) st).2.1
      = st.2.1 ++ l.map (fun c =>
          ⟨c, testAcc c.1 c.2.1 c.2.2,
            (train_model (metrics c.1 c.2.1 c.2.2) c.2.2).1⟩) := by
  induction l generalizing st with
  | nil => simp
  | cons c rest ih =>
    obtain ⟨lr, bs, ne⟩ := c
    rw [List.foldl_cons, ih]
    simp [thStep]

/-- Every file event the triple loop of `test_hyperparams` adds beyond its
starting state is in append mode. -/
theorem foldl_thStep_events (metrics : ℚ → Nat → Nat → EpochMetrics)
    (testAcc : ℚ → Nat → Nat → ℚ) (l : List (ℚ × Nat × Nat))
    (st : Nat × List THRecord × List FileEvent) :
    ∃ d : List FileEvent,
      (l.foldl (thStep metrics testAcc) st).2.2 = st.2.2 ++ d ∧
      ∀ e ∈ d, e.mode = FileMode.append := by
  induction l generalizing st with
  | nil => exact ⟨[], by simp, by simp⟩
  | cons c rest ih =>
    obtain ⟨lr, bs, ne⟩ := c
    obtain ⟨d, hd, hall⟩ := ih (thStep metrics testAcc st (lr, bs, ne))
    refine ⟨(⟨.append, .testing (st.1 + 1) num_tests lr bs ne⟩
        :: (train_model (metrics lr bs ne) ne).2 ++ [⟨.append, .testAccuracy (testAcc lr bs ne)⟩]) ++ d,
      ?_, ?_⟩
    · rw [List.foldl_cons, hd]
      simp [thStep]
    · intro e he
      rcases List.mem_append.1 he with h | h
      · rcases List.mem_append.1 h with h | h
        · rcases List.mem_cons.1 h with h | h
          · rw [h]
          · rw [train_model_writes_nil] at h
            simp at h
        · simp at h
          rw [h]
      · exact hall e h

/-- Replaying any all-append event sequence preserves the existing file
content as a prefix. -/
theorem replayFile_append_events (evs : List FileEvent) (s : List LogLine)
    (h : ∀ e ∈ evs, e.mode = FileMode.append) : s <+: replayFile s evs := by
  induction evs generalizing s with
  | nil => simp [replayFile]
  | cons e rest ih =>
    have hmode := h e (List.mem_cons_self e rest)
    have hstep : replayFile s (e :: rest) = replayFile (s ++ [e.line]) rest := by
      simp [replayFile, hmode]
    rw [hstep]
    exact (List.prefix_append s [e.line]).trans
      (ih (s ++ [e.line]) (fun x hx => h x (List.mem_cons_of_mem e hx)))

/-- Claim C2: the grid search enumerates every combination exactly once —
the run count is the product of the choice-list sizes, both grids are
duplicate-free, membership is componentwise — and `test_hyperparams`
records one `{hyperparameters, accuracy, loss curves}` entry per
combination; but `hyperparameter_tuning` on its own grid aborts with the
tuple-unpack ValueError on the first combination, so its per-combination
training and record-keeping never happen (the code bug behind claim C3). -/
theorem c2_grid_enumeration :
    (∀ g : ParamGrid, (gridCombinations g).length
        = g.model.length * g.batch_size.length * g.learning_rate.length
          * g.optimizer.length * g.epochs.length) ∧
    (∀ (g : ParamGrid) (p : Params), p ∈ gridCombinations g ↔
      p.model ∈ g.model ∧ p.batch_size ∈ g.batch_size ∧
      p.learning_rate ∈ g.learning_rate ∧ p.optimizer ∈ g.optimizer ∧
      p.epochs ∈ g.epochs) ∧
    (gridCombinations mainParamGrid).Nodup ∧
    thCombos.length = num_tests ∧
    thCombos.Nodup ∧
    (∀ (metrics : ℚ → Nat → Nat → EpochMetrics) (testAcc : ℚ → Nat → Nat → ℚ),
      (test_hyperparams metrics testAcc).1
        = thCombos.map fun c =>
            ⟨c, testAcc c.1 c.2.1 c.2.2,
              (train_model (metrics c.1 c.2.1 c.2.2) c.2.2).1⟩) ∧
    (∀ testAcc : Params → ℚ,
      hyperparameter_tuning testAcc mainParamGrid
        = .error .tooManyValuesToUnpack) := by
  refine ⟨gridCombinations_length, mem_gridCombinations,
    gridCombinations_main_nodup, ?_, thCombos_nodup, ?_, ?_⟩
  · rw [thCombos_eq_product]
    unfold num_tests
    rw [List.length_product, List.length_product, Nat.mul_assoc]
  · intro metrics testAcc
    have h := foldl_thStep_results metrics testAcc thCombos
      (0, [], [⟨.write, .beginHeader⟩])
    simp only [test_hyperparams]
    simpa using h
  · intro testAcc
    obtain ⟨rest, hrest⟩ : ∃ rest, gridCombinations mainParamGrid
        = ⟨"SimpleCNN", 32, 1/1000, "adam", 10⟩ :: rest := ⟨_, rfl⟩
    have hrun := runCombination_unpack_error
      ⟨"SimpleCNN", 32, 1/1000, "adam", 10⟩ (by decide) testAcc
    have hloop : tuningLoop testAcc
        (⟨"SimpleCNN", 32, 1/1000, "adam", 10⟩ :: rest) ((none, 0), [])
        = .error .tooManyValuesToUnpack := by
      simp only [tuningLoop]
      rw [hrun]
    unfold hyperparameter_tuning
    rw [hrest, hloop]

/-- Claim C10: the `output.txt` trace of `test_hyperparams` opens the file
in write (truncate) mode exactly once, as its very first event, and every
subsequent event is an append; replaying any all-append suffix leaves the
previously written lines in place as a prefix of the final content. -/
theorem c10_append_only_log (metrics : ℚ → Nat → Nat → EpochMetrics)
    (testAcc : ℚ → Nat → Nat → ℚ) :
    ∃ rest : List FileEvent,
      (test_hyperparams metrics testAcc).2
        = ⟨FileMode.write, LogLine.beginHeader⟩ :: rest ∧
      (∀ e ∈ rest, e.mode = FileMode.append) ∧
      ∀ s : List LogLine, s <+: replayFile s rest := by
  obtain ⟨d, hd, hall⟩ := foldl_thStep_events metrics testAcc thCombos
    (0, [], [⟨.write, .beginHeader⟩])
  set st := thCombos.foldl (thStep metrics testAcc)
    (0, [], [⟨FileMode.write, LogLine.beginHeader⟩]) with hst
  set bsel := selectBest (st.2.1.map fun r => (r.key, r.accuracy)) with hbsel
  have hall₂ : ∀ e ∈ d ++ [⟨FileMode.append, LogLine.best bsel.1 bsel.2⟩],
      e.mode = FileMode.append := by
    intro e he
    rcases List.mem_append.1 he with h | h
    · exact hall e h
    · simp at h
      rw [h]
  refine ⟨d ++ [⟨FileMode.append, LogLine.best bsel.1 bsel.2⟩], ?_, hall₂,
    fun s => replayFile_append_events _ s hall₂⟩
  simp only [test_hyperparams]
  rw [← hst, ← hbsel, hd]
  simp

/-- Witness for C10 at constant oracles. -/
theorem c10_append_only_log_witness :
    ∃ rest : List FileEvent,
      (test_hyperparams (fun _ _ _ _ => ((0 : ℚ), (0 : ℚ), (0 : ℚ), (0 : ℚ)))
        (fun _ _ _ => (0 : ℚ))).2
        = ⟨FileMode.write, LogLine.beginHeader⟩ :: rest ∧
      (∀ e ∈ rest, e.mode = FileMode.append) ∧
      ∀ s : List LogLine, s <+: replayFile s rest :=
  c10_append_only_log (fun _ _ _ _ => ((0 : ℚ), (0 : ℚ), (0 : ℚ), (0 : ℚ)))
    (fun _ _ _ => (0 : ℚ))
